import Mathlib

/-!
Verification of the voice-biometrics core of `voice-id-secure`.

The TypeScript source is shallowly embedded over `ℝ` (JavaScript `number`s
are idealized as real numbers, `Math.sqrt` as `Real.sqrt`, and so on).
Audio buffers and coefficient vectors are `List ℝ`; out-of-range indexed
reads, which never occur on the executions the theorems speak about, are
rendered with `List.getD _ _ 0`.  Boolean results of floating comparisons
become `Prop`s (classical `if` is used where the source branches on them).
`throw new Error(...)` is rendered as `Except.error`, and the JSON
(de)serialization pair is modelled at the JSON-value level: an inductive
`JValue` stands for the parsed `JSON.parse`/`JSON.stringify` value, the
string encoding itself being assumed faithful.
-/

noncomputable section

open Classical

/-! ### Signature data model (`VoiceSignature` from the enhanced signature module) -/

structure VoiceSignature where
  mean : List ℝ
  variance : List ℝ
  deltaMean : List ℝ
  energy : ℝ
  zeroCrossingRate : ℝ
  frameCount : ℝ

/-- Sum of squares of a list, matching the `normA += a[i] * a[i]` accumulation
in `cosineSimilarity`. -/
def normSq (l : List ℝ) : ℝ :=
  l.foldl (fun acc x => acc + x * x) 0

/-- `cosineSimilarity(a, b)` from the MFCC module: returns `0` on length
mismatch or empty input, `0` when the product of norms is `0`, otherwise the
normalized dot product. -/
def cosineSimilarity (a b : List ℝ) : ℝ :=
  if a.length ≠ b.length ∨ a.length = 0 then 0
  else
    let dotProduct := (a.zip b).foldl (fun acc p => acc + p.1 * p.2) 0
    let denominator := Real.sqrt (normSq a) * Real.sqrt (normSq b)
    if denominator = 0 then 0 else dotProduct / denominator

/-- `averageSignatures(signatures)`: element-wise arithmetic mean of all
fields; `throw new Error('No signatures to average')` on the empty list is
rendered as `Except.error`.  The source accumulates all fields in one loop
over the signatures with `numCoeffs = signatures[0].mean.length`; the
per-field folds below are that same accumulation. -/
def averageSignatures (signatures : List VoiceSignature) : Except String VoiceSignature :=
  match signatures with
  | [] => Except.error "No signatures to average"
  | s0 :: _ =>
    let numCoeffs := s0.mean.length
    let n : ℝ := signatures.length
    Except.ok
      { mean := (List.range numCoeffs).map fun i =>
          (signatures.foldl (fun acc sig => acc + sig.mean.getD i 0) 0) / n
        variance := (List.range numCoeffs).map fun i =>
          (signatures.foldl (fun acc sig => acc + sig.variance.getD i 0) 0) / n
        deltaMean := (List.range numCoeffs).map fun i =>
          (signatures.foldl (fun acc sig => acc + sig.deltaMean.getD i 0) 0) / n
        energy := (signatures.foldl (fun acc sig => acc + sig.energy) 0) / n
        zeroCrossingRate := (signatures.foldl (fun acc sig => acc + sig.zeroCrossingRate) 0) / n
        frameCount := (signatures.foldl (fun acc sig => acc + sig.frameCount) 0) / n }

/-- `weightedDistance(test, stored)`: the composite similarity score.
Local names `energyR`, `zcrR`, `frameR` correspond to `energyRatio`,
`zcrRatio`, `frameRatio` in the source. -/
def weightedDistance (test stored : VoiceSignature) : ℝ :=
  let meanSim := cosineSimilarity test.mean stored.mean
  let varianceSim := cosineSimilarity test.variance stored.variance
  let deltaSim := cosineSimilarity test.deltaMean stored.deltaMean
  let energyR := min test.energy stored.energy / max test.energy stored.energy
  let zcrR := min test.zeroCrossingRate stored.zeroCrossingRate /
      max test.zeroCrossingRate stored.zeroCrossingRate
  let frameDiff := |test.frameCount - stored.frameCount|
  let frameR := 1 - min (frameDiff / stored.frameCount) 1
  meanSim * 0.35 + varianceSim * 0.25 + deltaSim * 0.15 +
    energyR * 0.10 + zcrR * 0.05 + frameR * 0.10

structure VerificationDetails where
  meanSimilarity : ℝ
  varianceSimilarity : ℝ
  overallScore : ℝ
  meanPassed : Prop
  variancePassed : Prop

structure StrictVerificationResult where
  «match» : Prop
  confidence : ℝ
  details : VerificationDetails

/-- `verifyVoiceStrict(test, stored, threshold = 0.92)`: all three gates
(mean similarity, variance similarity, overall weighted score) must pass. -/
def verifyVoiceStrict (testSignature storedSignature : VoiceSignature)
    (threshold : ℝ) : StrictVerificationResult :=
  let overallScore := weightedDistance testSignature storedSignature
  let meanSim := cosineSimilarity testSignature.mean storedSignature.mean
  let varianceSim := cosineSimilarity testSignature.variance storedSignature.variance
  let meanPasses : Prop := meanSim ≥ 0.88
  let variancePasses : Prop := varianceSim ≥ 0.80
  let overallPasses : Prop := overallScore ≥ threshold
  { «match» := meanPasses ∧ variancePasses ∧ overallPasses
    confidence := overallScore
    details :=
      { meanSimilarity := meanSim
        varianceSimilarity := varianceSim
        overallScore := overallScore
        meanPassed := meanPasses
        variancePassed := variancePasses } }

/-- `convertLegacySignature(legacy)`: bare-array signatures get defaulted
modern fields. -/
def convertLegacySignature (legacy : List ℝ) : VoiceSignature :=
  { mean := legacy
    variance := List.replicate legacy.length 0.1
    deltaMean := List.replicate legacy.length 0
    energy := 0.01
    zeroCrossingRate := 0.1
    frameCount := 50 }

/-! ### JSON-value model for `serializeSignature` / `deserializeSignature` -/

/-- Parsed JSON values, the common output type of `JSON.parse`. -/
inductive JValue where
  | jnull : JValue
  | jbool (b : Bool) : JValue
  | num (x : ℝ) : JValue
  | str (s : String) : JValue
  | arr (elems : List JValue) : JValue
  | obj (fields : List (String × JValue)) : JValue

/-- Property access `v.key` on a parsed value (`undefined` is `none`). -/
def jGet (v : JValue) (key : String) : Option JValue :=
  match v with
  | .obj fields => fields.lookup key
  | _ => none

/-- JavaScript truthiness of a possibly-undefined value, as used by the
`parsed.mean && parsed.variance` format check (arrays and objects are always
truthy, `0`, `''`, `null` and `undefined` are falsy). -/
def jTruthy : Option JValue → Prop
  | none => False
  | some .jnull => False
  | some (.jbool b) => b = true
  | some (.num x) => x ≠ 0
  | some (.str s) => s ≠ ""
  | some (.arr _) => True
  | some (.obj _) => True

/-- Reads a JSON array of numbers back as a `List ℝ`.  The source performs an
unchecked cast (`parsed as VoiceSignature` / `number[]`); the typed embedding
renders that cast as a strict decode that fails on shape mismatch, which is
only exercised here on shapes the encoder produces. -/
def decodeNumList : List JValue → Option (List ℝ)
  | [] => some []
  | .num x :: rest => (decodeNumList rest).map fun xs => x :: xs
  | _ :: _ => none

def decodeVec (v : JValue) (key : String) : Option (List ℝ) :=
  match jGet v key with
  | some (.arr elems) => decodeNumList elems
  | _ => none

def decodeScalar (v : JValue) (key : String) : Option ℝ :=
  match jGet v key with
  | some (.num x) => some x
  | _ => none

/-- The typed reading of `parsed as VoiceSignature`. -/
def decodeVoiceSignature (v : JValue) : Option VoiceSignature :=
  match decodeVec v "mean", decodeVec v "variance", decodeVec v "deltaMean",
      decodeScalar v "energy", decodeScalar v "zeroCrossingRate",
      decodeScalar v "frameCount" with
  | some mean, some variance, some deltaMean, some energy, some zcr, some fc =>
      some ⟨mean, variance, deltaMean, energy, zcr, fc⟩
  | _, _, _, _, _, _ => none

/-- `serializeSignature(sig) = JSON.stringify(sig)`, modelled as the JSON
value the string denotes (stable field names, numeric JSON). -/
def serializeSignature (sig : VoiceSignature) : JValue :=
  .obj [ ("mean", .arr (sig.mean.map JValue.num)),
         ("variance", .arr (sig.variance.map JValue.num)),
         ("deltaMean", .arr (sig.deltaMean.map JValue.num)),
         ("energy", .num sig.energy),
         ("zeroCrossingRate", .num sig.zeroCrossingRate),
         ("frameCount", .num sig.frameCount) ]

/-- `deserializeSignature(data)`: new-format objects (truthy `mean` and
`variance`) are cast back, bare arrays go through the legacy conversion,
anything else yields `null`. -/
def deserializeSignature (data : JValue) : Option VoiceSignature :=
  if jTruthy (jGet data "mean") ∧ jTruthy (jGet data "variance") then
    decodeVoiceSignature data
  else
    match data with
    | .arr elems => (decodeNumList elems).map convertLegacySignature
    | _ => none

/-! ### Transform: Hamming window and iterative radix-2 FFT -/

/-- `hammingWindow(size)`. -/
def hammingWindow (size : Nat) : List ℝ :=
  (List.range size).map fun (i : Nat) =>
    0.54 - 0.46 * Real.cos (2 * Real.pi * i / ((size : ℝ) - 1))

/-- One carry step of the bit-reversal index update: the source's
`while (k <= j) { j -= k; k >>= 1; }  j += k;`.  The `k = 0` base case is
unreachable on the indices the FFT feeds in (the loop always exits at a clear
bit first); the source would spin forever there. -/
def bitrevNext (j k : Nat) : Nat :=
  if h : k = 0 then j
  else if k ≤ j then bitrevNext (j - k) (k / 2) else j + k
termination_by k
decreasing_by
  exact Nat.div_lt_self (Nat.pos_of_ne_zero h) (by norm_num)

/-- The in-place `[l[i], l[j]] = [l[j], l[i]]` swap. -/
def listSwap (l : List ℝ) (i j : Nat) : List ℝ :=
  let vi := l.getD i 0
  let vj := l.getD j 0
  (l.set i vj).set j vi

/-- Bit-reversal permutation pass of `fft`. -/
def bitReversePass (re im : List ℝ) : List ℝ × List ℝ :=
  let n := re.length
  let result := (List.range (n - 1)).foldl
    (fun (st : (List ℝ × List ℝ) × Nat) i =>
      let r := st.1.1
      let m := st.1.2
      let j := st.2
      let r' := if i < j then listSwap r i j else r
      let m' := if i < j then listSwap m i j else m
      ((r', m'), bitrevNext j (n / 2)))
    ((re, im), 0)
  result.1

/-- One Cooley–Tukey combine stage of `fft` for a given butterfly `size`
(the body of `for (let size = 2; size <= n; size *= 2)`). -/
def butterflyPass (st : List ℝ × List ℝ) (size : Nat) : List ℝ × List ℝ :=
  let n := st.1.length
  let halfSize := size / 2
  let step := 2 * Real.pi / size
  (List.range ((n + size - 1) / size)).foldl
    (fun st' (blk : Nat) =>
      (List.range halfSize).foldl
        (fun st'' (k : Nat) =>
          let re := st''.1
          let im := st''.2
          let i := blk * size
          let angle := -(step * (k : ℝ))
          let c := Real.cos angle
          let s := Real.sin angle
          let evenIdx := i + k
          let oddIdx := i + k + halfSize
          let tReal := c * re.getD oddIdx 0 - s * im.getD oddIdx 0
          let tImag := s * re.getD oddIdx 0 + c * im.getD oddIdx 0
          let reEven := re.getD evenIdx 0
          let imEven := im.getD evenIdx 0
          ((re.set oddIdx (reEven - tReal)).set evenIdx (reEven + tReal),
           (im.set oddIdx (imEven - tImag)).set evenIdx (imEven + tImag)))
        st')
    st

/-- `fft(real, imag)`: returns the transformed pair instead of mutating in
place.  The stage sizes `2, 4, ..., 2^log2(n)` are exactly those visited by
`for (let size = 2; size <= n; size *= 2)`. -/
def fft (real imag : List ℝ) : List ℝ × List ℝ :=
  let n := real.length
  if n ≤ 1 then (real, imag)
  else
    ((List.range (Nat.log2 n)).map fun t => 2 ^ (t + 1)).foldl
      butterflyPass (bitReversePass real imag)

/-! ### Mel filter bank -/

def hzToMel (hz : ℝ) : ℝ :=
  2595 * Real.logb 10 (1 + hz / 700)

def melToHz (mel : ℝ) : ℝ :=
  700 * ((10 : ℝ) ^ (mel / 2595) - 1)

/-- `createMelFilterBank`: triangular filters over power-spectrum bins.  The
source zero-fills each filter and then writes the two linear ramps over the
index ranges `[bins[i], bins[i+1])` and `[bins[i+1], bins[i+2])`; the
conditional below is that write pattern. -/
def createMelFilterBank (fftSize sampleRate numFilters : Nat)
    (minFreq maxFreq : ℝ) : List (List ℝ) :=
  let melMin := hzToMel minFreq
  let melMax := hzToMel maxFreq
  let melPoints := (List.range (numFilters + 2)).map fun (i : Nat) =>
    melToHz (melMin + (i * (melMax - melMin)) / ((numFilters : ℝ) + 1))
  let fftBins := melPoints.map fun f => ⌊(((fftSize : ℝ) + 1) * f) / (sampleRate : ℝ)⌋
  (List.range numFilters).map fun i =>
    let b0 := fftBins.getD i 0
    let b1 := fftBins.getD (i + 1) 0
    let b2 := fftBins.getD (i + 2) 0
    (List.range (fftSize / 2 + 1)).map fun j =>
      if b0 ≤ (j : ℤ) ∧ (j : ℤ) < b1 then ((j : ℝ) - (b0 : ℝ)) / ((b1 : ℝ) - (b0 : ℝ))
      else if b1 ≤ (j : ℤ) ∧ (j : ℤ) < b2 then ((b2 : ℝ) - (j : ℝ)) / ((b2 : ℝ) - (b1 : ℝ))
      else 0

/-- The precomputed `melFilterBank` module constant
(`FFT_SIZE = 512`, `SAMPLE_RATE = 16000`, `NUM_MEL_FILTERS = 26`,
`MIN_FREQ = 0`, `MAX_FREQ = 8000`). -/
def melFilterBank : List (List ℝ) :=
  createMelFilterBank 512 16000 26 0 8000

/-- The precomputed `window` module constant. -/
def window512 : List ℝ :=
  hammingWindow 512

/-! ### MFCC extractor -/

/-- `dct(input, numCoeffs)`: DCT-II. -/
def dct (input : List ℝ) (numCoeffs : Nat) : List ℝ :=
  let n := input.length
  (List.range numCoeffs).map fun (k : Nat) =>
    (List.range n).foldl
      (fun sum i =>
        sum + input.getD i 0 * Real.cos (Real.pi * k * (2 * i + 1) / (2 * (n : ℝ))))
      0

/-- `extractFrameMFCC(frame)`: window, FFT, power spectrum, mel energies,
log-compress, DCT.  The `while (windowed.length < FFT_SIZE) push(0)` in the
source is a no-op because `windowed` is allocated at length 512 up front. -/
def extractFrameMFCC (frame : List ℝ) : List ℝ :=
  let windowed := (List.range 512).map fun i =>
    if i < frame.length then frame.getD i 0 * window512.getD i 0 else 0
  let fftResult := fft windowed (List.replicate 512 0)
  let re := fftResult.1
  let im := fftResult.2
  let powerSpectrum := (List.range (512 / 2 + 1)).map fun i =>
    re.getD i 0 * re.getD i 0 + im.getD i 0 * im.getD i 0
  let melEnergies := (List.range 26).map fun i =>
    Real.log
      ((powerSpectrum.zip (melFilterBank.getD i [])).foldl
        (fun acc p => acc + p.1 * p.2) 0 + 1e-10)
  dct melEnergies 13

/-- The frame loop `for (let i = 0; i + frameSize <= len; i += hopSize)`
shared by the MFCC extractor and the deepfake analyses: collects the
full-length windows of `frameSize` samples starting at `i`, `i + hop`, ….
Positivity of `frameSize` and `hop` (always literal at call sites) is taken
as an argument so the loop provably terminates. -/
def slidingFrames (xs : List ℝ) (frameSize hop : Nat)
    (hf : 0 < frameSize) (hh : 0 < hop) (i : Nat) : List (List ℝ) :=
  if i + frameSize ≤ xs.length then
    ((xs.drop i).take frameSize) :: slidingFrames xs frameSize hop hf hh (i + hop)
  else []
termination_by xs.length - i
decreasing_by
  omega

/-- `extractMFCC(audioData)`: frame size 512, hop 256, one cepstral vector
per full frame. -/
def extractMFCC (audioData : List ℝ) : List (List ℝ) :=
  (slidingFrames audioData 512 256 (by norm_num) (by norm_num) 0).map extractFrameMFCC

/-- `computeVoiceSignature(mfccFrames)`: element-wise mean over the frames,
`[]` on empty input; `numCoeffs` is the first frame's length. -/
def computeVoiceSignature (mfccFrames : List (List ℝ)) : List ℝ :=
  match mfccFrames with
  | [] => []
  | f0 :: _ =>
    (List.range f0.length).map fun i =>
      (mfccFrames.foldl (fun acc frame => acc + frame.getD i 0) 0) / mfccFrames.length

/-! ### Voice signature builder -/

/-- `computeVariance(frames, mean)`: element-wise population variance,
`[]` on empty frames; `numCoeffs` is `mean.length`. -/
def computeVariance (frames : List (List ℝ)) (mean : List ℝ) : List ℝ :=
  match frames with
  | [] => []
  | _ :: _ =>
    (List.range mean.length).map fun i =>
      (frames.foldl
        (fun acc frame =>
          acc + (frame.getD i 0 - mean.getD i 0) * (frame.getD i 0 - mean.getD i 0))
        0) / frames.length

/-- `computeDelta(frames)`: central-difference velocity coefficients for
`N ≥ 3` frames, passthrough otherwise.  The source's loop index `i` runs over
`1 .. N-2`; here it is shifted down by one. -/
def computeDelta (frames : List (List ℝ)) : List (List ℝ) :=
  if frames.length < 3 then frames
  else
    (List.range (frames.length - 2)).map fun i =>
      (List.range ((frames.getD (i + 1) []).length)).map fun j =>
        ((frames.getD (i + 2) []).getD j 0 - (frames.getD i []).getD j 0) / 2

/-- `computeEnergy(audioData)`: mean squared sample. -/
def computeEnergy (audioData : List ℝ) : ℝ :=
  (audioData.foldl (fun acc x => acc + x * x) 0) / audioData.length

/-- `computeZeroCrossingRate(audioData)`: sign changes between adjacent
samples over the buffer length; the pairs of `zip` with the tail are exactly
the `(audioData[i-1], audioData[i])` pairs of the source loop. -/
def computeZeroCrossingRate (audioData : List ℝ) : ℝ :=
  ((audioData.zip audioData.tail).foldl
    (fun acc p =>
      acc + if (p.2 ≥ 0 ∧ p.1 < 0) ∨ (p.2 < 0 ∧ p.1 ≥ 0) then (1 : ℝ) else 0)
    0) / audioData.length

/-- `extractVoiceSignature(audioData)`. -/
def extractVoiceSignature (audioData : List ℝ) : VoiceSignature :=
  let mfccFrames := extractMFCC audioData
  let mean := computeVoiceSignature mfccFrames
  let variance := computeVariance mfccFrames mean
  let deltaFrames := computeDelta mfccFrames
  let deltaMean := computeVoiceSignature deltaFrames
  { mean := mean
    variance := variance
    deltaMean := deltaMean
    energy := computeEnergy audioData
    zeroCrossingRate := computeZeroCrossingRate audioData
    frameCount := (mfccFrames.length : ℝ) }

/-- `verifyVoice` result shape from the MFCC module. -/
structure VerificationResult where
  «match» : Prop
  confidence : ℝ

/-- `verifyVoice(testMfcc, storedSignature, threshold = 0.85)`; `Math.round`
is `⌊x + 1/2⌋`. -/
def verifyVoice (testMfcc : List (List ℝ)) (storedSignature : List ℝ)
    (threshold : ℝ) : VerificationResult :=
  let testSignature := computeVoiceSignature testMfcc
  let similarity := cosineSimilarity testSignature storedSignature
  { «match» := similarity ≥ threshold
    confidence := ((⌊similarity * 100 + 1 / 2⌋ : ℤ) : ℝ) / 100 }

/-! ### Deepfake / liveness classifier -/

structure DeepfakeMetrics where
  spectralFlatness : ℝ
  temporalVariation : ℝ
  pitchVariation : ℝ
  breathDetected : Prop
  microVariations : ℝ

structure DeepfakeAnalysis where
  isHuman : Prop
  confidence : ℝ
  reasons : List String
  metrics : DeepfakeMetrics

/-- Per-frame spectral flatness (body of the frame loop in
`calculateSpectralFlatness`); `none` models the `continue` taken when every
power-spectrum bin is at or below `1e-10`.  The loop `for (j = 1; j < 256)`
visits bins `1 .. 255`. -/
def flatnessOfFrame (frame : List ℝ) : Option ℝ :=
  let windowed := (frame.zip (hammingWindow 512)).map fun p => p.1 * p.2
  let fftResult := fft windowed (List.replicate 512 0)
  let re := fftResult.1
  let im := fftResult.2
  let powerSpectrum := ((List.range' 1 255).map fun j =>
      re.getD j 0 * re.getD j 0 + im.getD j 0 * im.getD j 0).foldr
    (fun p acc => if p > 1e-10 then p :: acc else acc) []
  if powerSpectrum.length = 0 then none
  else
    let geometricMean :=
      Real.exp ((powerSpectrum.foldl (fun acc v => acc + Real.log v) 0) /
        powerSpectrum.length)
    let arithmeticMean := (powerSpectrum.foldl (fun (acc : ℝ) v => acc + v) 0) /
        powerSpectrum.length
    some (geometricMean / (arithmeticMean + 1e-10))

/-- `calculateSpectralFlatness(audioData)`: mean per-frame flatness over
50%-overlapped 512-sample frames, `0` when no frame contributes. -/
def calculateSpectralFlatness (audioData : List ℝ) : ℝ :=
  let flatnessValues :=
    (slidingFrames audioData 512 256 (by norm_num) (by norm_num) 0).filterMap
      flatnessOfFrame
  if flatnessValues.length > 0 then
    (flatnessValues.foldl (fun (acc : ℝ) v => acc + v) 0) / flatnessValues.length
  else 0

/-- `calculateTemporalVariation(audioData)`: standard deviation of
frame-to-frame RMS-energy differences over 256-sample frames. -/
def calculateTemporalVariation (audioData : List ℝ) : ℝ :=
  let energies := (slidingFrames audioData 256 256 (by norm_num) (by norm_num) 0).map
    fun f => Real.sqrt ((f.foldl (fun acc x => acc + x * x) 0) / 256)
  if energies.length < 2 then 0
  else
    let differences := (energies.zip energies.tail).map fun p => |p.2 - p.1|
    let mean := (differences.foldl (fun (acc : ℝ) v => acc + v) 0) / differences.length
    let variance :=
      (differences.foldl (fun (acc : ℝ) v => acc + (v - mean) ^ 2) 0) / differences.length
    Real.sqrt variance

/-- `calculatePitchVariation(audioData)`: standard deviation of per-frame
zero-crossing rates over 50%-overlapped 512-sample frames. -/
def calculatePitchVariation (audioData : List ℝ) : ℝ :=
  let zcrs := (slidingFrames audioData 512 256 (by norm_num) (by norm_num) 0).map
    fun f =>
      ((f.zip f.tail).foldl
        (fun acc p =>
          acc + if (p.1 ≥ 0 ∧ p.2 < 0) ∨ (p.1 < 0 ∧ p.2 ≥ 0) then (1 : ℝ) else 0)
        0) / 512
  if zcrs.length < 2 then 0
  else
    let mean := (zcrs.foldl (fun (acc : ℝ) v => acc + v) 0) / zcrs.length
    let variance := (zcrs.foldl (fun (acc : ℝ) v => acc + (v - mean) ^ 2) 0) / zcrs.length
    Real.sqrt variance

/-- `detectBreathSounds(audioData)`: counts 512-sample frames whose RMS
energy sits in `(0.005, 0.05)` and whose first-difference RMS to energy
ratio exceeds `0.5`.  The source tallies these in nested `if`s (the outer
`lowEnergyFrames` counter is dead code for the verdict); the conjunction
below is that nesting. -/
def detectBreathSounds (audioData : List ℝ) : Prop :=
  let frames := slidingFrames audioData 512 512 (by norm_num) (by norm_num) 0
  let breathLikeFrames := frames.foldl
    (fun (cnt : Nat) f =>
      let rmsEnergy := Real.sqrt ((f.foldl (fun acc x => acc + x * x) 0) / 512)
      let rmsHighFreq :=
        Real.sqrt (((f.zip f.tail).foldl
          (fun acc p => acc + (p.2 - p.1) * (p.2 - p.1)) 0) / (512 - 1))
      if rmsEnergy < 0.05 ∧ rmsEnergy > 0.005 ∧
          rmsHighFreq / (rmsEnergy + 1e-10) > 0.5 then
        cnt + 1
      else cnt)
    0
  breathLikeFrames > 2

/-- `calculateMicroVariations(audioData)`: jitter of local amplitude peaks
above `0.1`.  The zipped triples are `(a[i-1], a[i], a[i+1])` for the
source's peak loop `for (i = 1; i < len - 1; i++)`. -/
def calculateMicroVariations (audioData : List ℝ) : ℝ :=
  let peaks := ((audioData.zip audioData.tail).zip audioData.tail.tail).foldr
    (fun t acc =>
      if t.1.2 > t.1.1 ∧ t.1.2 > t.2 ∧ t.1.2 > 0.1 then t.1.2 :: acc else acc)
    []
  if peaks.length < 10 then 0
  else
    let differences := (peaks.zip peaks.tail).map fun p => |p.2 - p.1|
    let mean := (differences.foldl (fun (acc : ℝ) v => acc + v) 0) / differences.length
    let peakMean := (peaks.foldl (fun (acc : ℝ) v => acc + v) 0) / peaks.length
    mean / (peakMean + 1e-10)

/-- `detectDeepfake(audioData)`: five heuristic checks, one point each,
`confidence = humanScore / 5`, `isHuman = confidence ≥ 0.6`. -/
def detectDeepfake (audioData : List ℝ) : DeepfakeAnalysis :=
  let spectralFlatness := calculateSpectralFlatness audioData
  let pass1 : Prop := 0.08 ≤ spectralFlatness ∧ spectralFlatness ≤ 0.45
  let temporalVariation := calculateTemporalVariation audioData
  let pass2 : Prop := temporalVariation > 0.005
  let pitchVariation := calculatePitchVariation audioData
  let pass3 : Prop := pitchVariation > 0.01
  let breathDetected := detectBreathSounds audioData
  let microVariations := calculateMicroVariations audioData
  let pass5 : Prop := microVariations > 0.02 ∧ microVariations < 0.3
  let humanScore : ℝ :=
    (if pass1 then 1 else 0) + (if pass2 then 1 else 0) + (if pass3 then 1 else 0) +
      (if breathDetected then 1 else 0) + (if pass5 then 1 else 0)
  let confidence := humanScore / 5
  let isHuman : Prop := confidence ≥ 0.6
  { isHuman := isHuman
    confidence := confidence
    reasons :=
      if isHuman then ["Voice appears natural and human"]
      else
        (if pass1 then [] else ["Unnatural spectral characteristics detected"]) ++
        (if pass2 then [] else ["Voice energy too consistent (lacks natural variation)"]) ++
        (if pass3 then [] else ["Pitch too monotone (lacks natural fluctuation)"]) ++
        (if breathDetected then [] else ["No natural breath sounds detected"]) ++
        (if pass5 then [] else ["Amplitude patterns appear artificial"])
    metrics :=
      { spectralFlatness := spectralFlatness
        temporalVariation := temporalVariation
        pitchVariation := pitchVariation
        breathDetected := breathDetected
        microVariations := microVariations } }

/-! ### Verification pipeline (`verifyAgainst` from `useVoiceRecorder`) -/

structure VerifyAgainstResult where
  «match» : Prop
  confidence : ℝ
  deepfakeAnalysis : DeepfakeAnalysis

/-- `verifyAgainst(audioData, storedSignature, threshold = 0.85)`: runs the
deepfake classifier first; a non-human verdict short-circuits to a forced
non-match, otherwise MFCC verification proceeds. -/
def verifyAgainst (audioData : List ℝ) (storedSignature : List ℝ)
    (threshold : ℝ) : VerifyAgainstResult :=
  let deepfakeAnalysis := detectDeepfake audioData
  if ¬ deepfakeAnalysis.isHuman then
    { «match» := False
      confidence := 0
      deepfakeAnalysis := deepfakeAnalysis }
  else
    let mfcc := extractMFCC audioData
    let result := verifyVoice mfcc storedSignature threshold
    { «match» := result.«match»
      confidence := result.confidence
      deepfakeAnalysis := deepfakeAnalysis }

/-! ### Concrete signatures used as witness inputs -/

/-- Stored-side signature whose mean is the unit vector `[1, 0]`. -/
def sigRef : VoiceSignature := ⟨[1, 0], [1], [0], 1, 1, 1⟩

/-- Test signature whose mean similarity against `sigRef` is exactly `0.87`
(its mean is a unit vector with first coordinate `0.87`). -/
def sig87 : VoiceSignature := ⟨[0.87, Real.sqrt 0.2431], [1], [0], 1, 1, 1⟩

/-- Test signature whose mean similarity against `sigRef` is exactly `0.88`. -/
def sig88 : VoiceSignature := ⟨[0.88, Real.sqrt 0.2256], [1], [0], 1, 1, 1⟩

/-- A non-degenerate signature in every component, including `deltaMean`. -/
def sigOnes : VoiceSignature := ⟨[1], [1], [1], 1, 1, 1⟩

/-- A signature that is non-degenerate in mean, variance, energy, zero
crossing rate and frame count, but has an all-zero `deltaMean` — the shape
`convertLegacySignature` produces. -/
def sigZeroDelta : VoiceSignature := ⟨[1], [1], [0], 1, 1, 1⟩

/-! ### Helper lemmas -/

/-- A fold whose step fixes the accumulator on every list element returns its
initial value. -/
theorem foldl_fix {α β : Type} (g : β → α → β) (l : List α) (b : β)
    (h : ∀ b' a, a ∈ l → g b' a = b') : l.foldl g b = b := by
  induction l generalizing b with
  | nil => rfl
  | cons x xs ih =>
    rw [List.foldl_cons, h b x (by simp)]
    exact ih b fun b' a ha => h b' a (by simp [ha])

theorem foldr_fix {α β : Type} (g : α → β → β) (l : List α) (b : β)
    (h : ∀ a b', a ∈ l → g a b' = b') : l.foldr g b = b := by
  induction l with
  | nil => rfl
  | cons x xs ih =>
    rw [List.foldr_cons, ih fun a b' ha => h a b' (by simp [ha])]
    exact h x b (by simp)

theorem foldl_sq_nonneg (l : List ℝ) : ∀ a : ℝ, 0 ≤ a →
    0 ≤ l.foldl (fun acc x => acc + x * x) a := by
  induction l with
  | nil => exact fun a ha => ha
  | cons x xs ih =>
    intro a ha
    rw [List.foldl_cons]
    exact ih _ (add_nonneg ha (mul_self_nonneg x))

theorem normSq_nonneg (l : List ℝ) : 0 ≤ normSq l :=
  foldl_sq_nonneg l 0 le_rfl

theorem foldl_zip_self (l : List ℝ) : ∀ a : ℝ,
    (l.zip l).foldl (fun acc p => acc + p.1 * p.2) a =
      l.foldl (fun acc x => acc + x * x) a := by
  induction l with
  | nil => exact fun a => rfl
  | cons x xs ih =>
    intro a
    rw [List.zip_cons_cons, List.foldl_cons, List.foldl_cons]
    exact ih _

theorem foldl_sq_replicate (c : ℝ) : ∀ (m : Nat) (a : ℝ),
    (List.replicate m c).foldl (fun acc x => acc + x * x) a = a + m * (c * c) := by
  intro m
  induction m with
  | zero => intro a; simp
  | succ k ih =>
    intro a
    rw [List.replicate_succ, List.foldl_cons, ih]
    push_cast
    ring

/-- Unfolding `cosineSimilarity` on same-length, non-empty vectors with a
non-vanishing norm product. -/
theorem cosineSimilarity_eval (a b : List ℝ) (hlen : a.length = b.length)
    (h0 : a.length ≠ 0)
    (hden : Real.sqrt (normSq a) * Real.sqrt (normSq b) ≠ 0) :
    cosineSimilarity a b =
      ((a.zip b).foldl (fun acc p => acc + p.1 * p.2) 0) /
        (Real.sqrt (normSq a) * Real.sqrt (normSq b)) := by
  simp only [cosineSimilarity]
  rw [if_neg (by push_neg; exact ⟨hlen, h0⟩), if_neg hden]

theorem cosineSimilarity_self (a : List ℝ) (h : normSq a ≠ 0) :
    cosineSimilarity a a = 1 := by
  have h0 : a.length ≠ 0 := by
    intro hl
    rw [List.length_eq_zero] at hl
    subst hl
    exact h rfl
  have hden : Real.sqrt (normSq a) * Real.sqrt (normSq a) = normSq a :=
    Real.mul_self_sqrt (normSq_nonneg a)
  rw [cosineSimilarity_eval a a rfl h0 (by rw [hden]; exact h), foldl_zip_self, hden]
  exact div_self h

theorem cosineSimilarity_one_one : cosineSimilarity [(1 : ℝ)] [(1 : ℝ)] = 1 := by
  apply cosineSimilarity_self
  simp only [normSq, List.foldl_cons, List.foldl_nil]
  norm_num

theorem cosineSimilarity_zero_zero : cosineSimilarity [(0 : ℝ)] [(0 : ℝ)] = 0 := by
  have hn : normSq [(0 : ℝ)] = 0 := by
    simp only [normSq, List.foldl_cons, List.foldl_nil]
    norm_num
  simp only [cosineSimilarity]
  rw [if_neg (by norm_num), if_pos (by rw [hn, Real.sqrt_zero, zero_mul])]

theorem cosineSimilarity_sig87 : cosineSimilarity sig87.mean sigRef.mean = 0.87 := by
  show cosineSimilarity [(0.87 : ℝ), Real.sqrt 0.2431] [1, 0] = 0.87
  have hs : Real.sqrt 0.2431 * Real.sqrt 0.2431 = 0.2431 :=
    Real.mul_self_sqrt (by norm_num)
  have hA : normSq [(0.87 : ℝ), Real.sqrt 0.2431] = 1 := by
    simp only [normSq, List.foldl_cons, List.foldl_nil]
    rw [hs]
    norm_num
  have hB : normSq [(1 : ℝ), 0] = 1 := by
    simp only [normSq, List.foldl_cons, List.foldl_nil]
    norm_num
  rw [cosineSimilarity_eval _ _ (by norm_num) (by norm_num)
    (by rw [hA, hB, Real.sqrt_one]; norm_num)]
  rw [hA, hB, Real.sqrt_one]
  simp only [List.zip_cons_cons, List.zip_nil_right, List.foldl_cons, List.foldl_nil]
  norm_num

theorem cosineSimilarity_sig88 : cosineSimilarity sig88.mean sigRef.mean = 0.88 := by
  show cosineSimilarity [(0.88 : ℝ), Real.sqrt 0.2256] [1, 0] = 0.88
  have hs : Real.sqrt 0.2256 * Real.sqrt 0.2256 = 0.2256 :=
    Real.mul_self_sqrt (by norm_num)
  have hA : normSq [(0.88 : ℝ), Real.sqrt 0.2256] = 1 := by
    simp only [normSq, List.foldl_cons, List.foldl_nil]
    rw [hs]
    norm_num
  have hB : normSq [(1 : ℝ), 0] = 1 := by
    simp only [normSq, List.foldl_cons, List.foldl_nil]
    norm_num
  rw [cosineSimilarity_eval _ _ (by norm_num) (by norm_num)
    (by rw [hA, hB, Real.sqrt_one]; norm_num)]
  rw [hA, hB, Real.sqrt_one]
  simp only [List.zip_cons_cons, List.zip_nil_right, List.foldl_cons, List.foldl_nil]
  norm_num

theorem weightedDistance_self (s : VoiceSignature)
    (hm : normSq s.mean ≠ 0) (hv : normSq s.variance ≠ 0)
    (hd : normSq s.deltaMean ≠ 0) (he : 0 < s.energy)
    (hz : 0 < s.zeroCrossingRate) : weightedDistance s s = 1 := by
  simp only [weightedDistance]
  rw [cosineSimilarity_self _ hm, cosineSimilarity_self _ hv, cosineSimilarity_self _ hd,
    min_self, max_self, min_self, max_self, div_self (ne_of_gt he),
    div_self (ne_of_gt hz), sub_self, abs_zero, zero_div,
    min_eq_left (by norm_num : (0 : ℝ) ≤ 1)]
  norm_num

/-- `(range n).map g = l` whenever `n` is `l`'s length and `g` agrees with
indexing into `l`. -/
theorem range_map_eq_of_getD (n : Nat) (l : List ℝ) (g : Nat → ℝ)
    (hn : n = l.length) (hg : ∀ i, i < n → g i = l.getD i 0) :
    (List.range n).map g = l := by
  subst hn
  apply List.ext_getElem (by simp)
  intro i h1 h2
  rw [List.getElem_map, List.getElem_range]
  rw [hg i (by simpa using h2), List.getD_eq_getElem]

/-! ### Claim theorems -/

/-- C1: `verifyVoiceStrict(test, stored, threshold)` matches iff the mean
cosine similarity is at least `0.88`, the variance cosine similarity is at
least `0.80`, and the overall weighted score is at least `threshold` (so a
high overall score cannot compensate for a failing individual gate); a mean
similarity of exactly `0.87` yields `meanPassed = false` and exactly `0.88`
yields `meanPassed = true`. -/
theorem verifyVoiceStrict_match_iff (test stored : VoiceSignature) (threshold : ℝ) :
    ((verifyVoiceStrict test stored threshold).«match» ↔
      (cosineSimilarity test.mean stored.mean ≥ 0.88 ∧
       cosineSimilarity test.variance stored.variance ≥ 0.80 ∧
       weightedDistance test stored ≥ threshold)) ∧
    (cosineSimilarity test.mean stored.mean = 0.87 →
      ¬ (verifyVoiceStrict test stored threshold).details.meanPassed) ∧
    (cosineSimilarity test.mean stored.mean = 0.88 →
      (verifyVoiceStrict test stored threshold).details.meanPassed) := by
  refine ⟨Iff.rfl, fun h => ?_, fun h => ?_⟩
  · show ¬ (cosineSimilarity test.mean stored.mean ≥ 0.88)
    rw [h]
    norm_num
  · show cosineSimilarity test.mean stored.mean ≥ 0.88
    rw [h]

/-- Witness for C1 at concrete inputs: `sig87` has mean similarity exactly
`0.87` against `sigRef` (gate fails), `sig88` exactly `0.88` (gate passes). -/
theorem verifyVoiceStrict_match_iff_witness :
    ¬ (verifyVoiceStrict sig87 sigRef 0.92).details.meanPassed ∧
      (verifyVoiceStrict sig88 sigRef 0.92).details.meanPassed :=
  ⟨(verifyVoiceStrict_match_iff sig87 sigRef 0.92).2.1 cosineSimilarity_sig87,
   (verifyVoiceStrict_match_iff sig88 sigRef 0.92).2.2 cosineSimilarity_sig88⟩

/-- C3: the confidence reported by `verifyVoiceStrict` is exactly
`weightedDistance(test, stored)`, which is the documented weighted sum of the
six component scores. -/
theorem verifyVoiceStrict_confidence_eq_weightedDistance
    (test stored : VoiceSignature) (threshold : ℝ) :
    (verifyVoiceStrict test stored threshold).confidence = weightedDistance test stored ∧
    weightedDistance test stored =
      0.35 * cosineSimilarity test.mean stored.mean +
      0.25 * cosineSimilarity test.variance stored.variance +
      0.15 * cosineSimilarity test.deltaMean stored.deltaMean +
      0.10 * (min test.energy stored.energy / max test.energy stored.energy) +
      0.05 * (min test.zeroCrossingRate stored.zeroCrossingRate /
        max test.zeroCrossingRate stored.zeroCrossingRate) +
      0.10 * (1 - min (|test.frameCount - stored.frameCount| / stored.frameCount) 1) := by
  refine ⟨rfl, ?_⟩
  simp only [weightedDistance]
  ring

/-- C4, counterexample to the claim as stated: `sigZeroDelta` satisfies every
non-degeneracy hypothesis the claim lists (nonzero-norm mean and variance,
positive energy, zero-crossing rate and frame count) and `0.92 ≤ 1`, yet
`verifyVoiceStrict(s, s, 0.92)` has confidence `0.85`, not `1`, and does not
match: the claim's validity conditions overlook the `deltaMean` component,
whose self-similarity is `0` for a zero vector. -/
theorem verifyVoiceStrict_self_counterexample :
    normSq sigZeroDelta.mean ≠ 0 ∧ normSq sigZeroDelta.variance ≠ 0 ∧
    0 < sigZeroDelta.energy ∧ 0 < sigZeroDelta.zeroCrossingRate ∧
    0 < sigZeroDelta.frameCount ∧ (0.92 : ℝ) ≤ 1 ∧
    ¬ ((verifyVoiceStrict sigZeroDelta sigZeroDelta 0.92).«match» ∧
       (verifyVoiceStrict sigZeroDelta sigZeroDelta 0.92).confidence = 1) := by
  have hm : normSq sigZeroDelta.mean ≠ 0 := by
    show normSq [(1 : ℝ)] ≠ 0
    simp only [normSq, List.foldl_cons, List.foldl_nil]
    norm_num
  have hwd : weightedDistance sigZeroDelta sigZeroDelta = 0.85 := by
    simp only [weightedDistance, sigZeroDelta]
    rw [cosineSimilarity_one_one, cosineSimilarity_zero_zero]
    norm_num
  refine ⟨hm, hm, by norm_num [sigZeroDelta], by norm_num [sigZeroDelta],
    by norm_num [sigZeroDelta], by norm_num, ?_⟩
  rintro ⟨-, hconf⟩
  have : weightedDistance sigZeroDelta sigZeroDelta = 1 := hconf
  rw [hwd] at this
  norm_num at this

/-- C4, amended: for a signature that is non-degenerate in all three vector
components (mean, variance and `deltaMean` of nonzero norm) with positive
energy and zero-crossing rate and positive frame count, and any threshold at
most `1`, self-verification matches with confidence exactly `1`. -/
theorem verifyVoiceStrict_self_match (s : VoiceSignature) (threshold : ℝ)
    (hm : normSq s.mean ≠ 0) (hv : normSq s.variance ≠ 0)
    (hd : normSq s.deltaMean ≠ 0) (he : 0 < s.energy)
    (hz : 0 < s.zeroCrossingRate) (hf : 0 < s.frameCount)
    (ht : threshold ≤ 1) :
    (verifyVoiceStrict s s threshold).«match» ∧
      (verifyVoiceStrict s s threshold).confidence = 1 := by
  have hw : weightedDistance s s = 1 := weightedDistance_self s hm hv hd he hz
  refine ⟨⟨?_, ?_, ?_⟩, hw⟩
  · show cosineSimilarity s.mean s.mean ≥ 0.88
    rw [cosineSimilarity_self _ hm]
    norm_num
  · show cosineSimilarity s.variance s.variance ≥ 0.80
    rw [cosineSimilarity_self _ hv]
    norm_num
  · show weightedDistance s s ≥ threshold
    rw [hw]
    exact ht

/-- Witness for the amended C4 at the concrete signature `sigOnes`. -/
theorem verifyVoiceStrict_self_match_witness :
    (verifyVoiceStrict sigOnes sigOnes 0.92).«match» ∧
      (verifyVoiceStrict sigOnes sigOnes 0.92).confidence = 1 := by
  have h1 : normSq [(1 : ℝ)] ≠ 0 := by
    simp only [normSq, List.foldl_cons, List.foldl_nil]
    norm_num
  exact verifyVoiceStrict_self_match sigOnes 0.92 h1 h1 h1 (by norm_num [sigOnes])
    (by norm_num [sigOnes]) (by norm_num [sigOnes]) (by norm_num)

/-- C6: `averageSignatures([])` signals the distinct catchable error
`'No signatures to average'` and never returns a signature, while every
non-empty list returns normally. -/
theorem averageSignatures_empty_error :
    averageSignatures [] = Except.error "No signatures to average" ∧
    ∀ signatures : List VoiceSignature, signatures ≠ [] →
      ∃ v, averageSignatures signatures = Except.ok v := by
  refine ⟨rfl, fun signatures h => ?_⟩
  obtain ⟨s0, rest, rfl⟩ := List.exists_cons_of_ne_nil h
  exact ⟨_, rfl⟩

/-- Witness for C6's non-empty half at a concrete singleton list. -/
theorem averageSignatures_empty_error_witness :
    ∃ v, averageSignatures [sigOnes] = Except.ok v :=
  averageSignatures_empty_error.2 [sigOnes] (by simp)

/-- C8: averaging three identical samples is a no-op on the mean vector. -/
theorem averageSignatures_triple_mean (s : VoiceSignature) :
    ∃ v, averageSignatures [s, s, s] = Except.ok v ∧ v.mean = s.mean := by
  simp only [averageSignatures]
  refine ⟨_, rfl, ?_⟩
  apply range_map_eq_of_getD _ _ _ rfl
  intro i hi
  simp only [List.foldl_cons, List.foldl_nil, List.length_cons, List.length_nil]
  push_cast
  ring

/-- C10: single-sample enrollment is exactly lossless — for a well-formed
signature (variance and deltaMean as long as mean), `averageSignatures([s])`
returns `s` in every field despite dividing each accumulated field by the
list length. -/
theorem averageSignatures_single_lossless (s : VoiceSignature)
    (hv : s.variance.length = s.mean.length)
    (hd : s.deltaMean.length = s.mean.length) :
    averageSignatures [s] = Except.ok s := by
  obtain ⟨m, v, d, e, z, f⟩ := s
  simp only at hv hd
  simp only [averageSignatures, List.foldl_cons, List.foldl_nil,
    List.length_cons, List.length_nil]
  congr 1
  have hnum : ∀ x : ℝ, (0 + x) / ((0 + 1 : Nat) : ℝ) = x := by
    intro x
    norm_num
  refine VoiceSignature.mk.injEq .. ▸ ?_
  exact ⟨range_map_eq_of_getD _ _ _ rfl fun i hi => hnum _,
    range_map_eq_of_getD _ _ _ hv.symm fun i hi => hnum _,
    range_map_eq_of_getD _ _ _ hd.symm fun i hi => hnum _,
    hnum e, hnum z, hnum f⟩

/-- Witness for C10 at the concrete signature `sigOnes`. -/
theorem averageSignatures_single_lossless_witness :
    averageSignatures [sigOnes] = Except.ok sigOnes :=
  averageSignatures_single_lossless sigOnes rfl rfl

theorem decodeNumList_map_num : ∀ xs : List ℝ,
    decodeNumList (xs.map JValue.num) = some xs := by
  intro xs
  induction xs with
  | nil => rfl
  | cons x rest ih =>
    rw [List.map_cons]
    show (decodeNumList (rest.map JValue.num)).map _ = _
    rw [ih]
    rfl

/-- C7: deserializing a serialized signature restores it exactly, and a
legacy bare array of 13 numbers deserializes to a signature with that array
as mean and the documented defaults for the other fields. -/
theorem serializeSignature_roundtrip (s : VoiceSignature) (xs : List ℝ)
    (hxs : xs.length = 13) :
    deserializeSignature (serializeSignature s) = some s ∧
    deserializeSignature (JValue.arr (xs.map JValue.num)) =
      some { mean := xs
             variance := List.replicate 13 0.1
             deltaMean := List.replicate 13 0
             energy := 0.01
             zeroCrossingRate := 0.1
             frameCount := 50 } := by
  constructor
  · have hm : jGet (serializeSignature s) "mean" =
        some (.arr (s.mean.map JValue.num)) := rfl
    have hv : jGet (serializeSignature s) "variance" =
        some (.arr (s.variance.map JValue.num)) := rfl
    simp only [deserializeSignature]
    rw [if_pos (by rw [hm, hv]; exact ⟨trivial, trivial⟩)]
    show decodeVoiceSignature (serializeSignature s) = some s
    have h1 : decodeVec (serializeSignature s) "mean" = some s.mean := by
      show decodeNumList (s.mean.map JValue.num) = some s.mean
      exact decodeNumList_map_num s.mean
    have h2 : decodeVec (serializeSignature s) "variance" = some s.variance := by
      show decodeNumList (s.variance.map JValue.num) = some s.variance
      exact decodeNumList_map_num s.variance
    have h3 : decodeVec (serializeSignature s) "deltaMean" = some s.deltaMean := by
      show decodeNumList (s.deltaMean.map JValue.num) = some s.deltaMean
      exact decodeNumList_map_num s.deltaMean
    have h4 : decodeScalar (serializeSignature s) "energy" = some s.energy := rfl
    have h5 : decodeScalar (serializeSignature s) "zeroCrossingRate" =
        some s.zeroCrossingRate := rfl
    have h6 : decodeScalar (serializeSignature s) "frameCount" =
        some s.frameCount := rfl
    rw [decodeVoiceSignature, h1, h2, h3, h4, h5, h6]
  · simp only [deserializeSignature]
    rw [if_neg (by rintro ⟨hm, -⟩; exact hm)]
    show (decodeNumList (xs.map JValue.num)).map convertLegacySignature = _
    rw [decodeNumList_map_num xs]
    show some (convertLegacySignature xs) = _
    rw [convertLegacySignature, hxs]

/-- Witness for C7 at a concrete signature and a concrete 13-number array. -/
theorem serializeSignature_roundtrip_witness :
    deserializeSignature (serializeSignature sigOnes) = some sigOnes ∧
    deserializeSignature (JValue.arr ((List.replicate 13 (2 : ℝ)).map JValue.num)) =
      some { mean := List.replicate 13 (2 : ℝ)
             variance := List.replicate 13 0.1
             deltaMean := List.replicate 13 0
             energy := 0.01
             zeroCrossingRate := 0.1
             frameCount := 50 } :=
  serializeSignature_roundtrip sigOnes (List.replicate 13 2) (by simp)

theorem slidingFrames_unfold (xs : List ℝ) (fs hop : Nat) (hf : 0 < fs)
    (hh : 0 < hop) (i : Nat) :
    slidingFrames xs fs hop hf hh i =
      if i + fs ≤ xs.length then
        ((xs.drop i).take fs) :: slidingFrames xs fs hop hf hh (i + hop)
      else [] := by
  rw [slidingFrames]

theorem dct_length (input : List ℝ) (numCoeffs : Nat) :
    (dct input numCoeffs).length = numCoeffs := by
  simp only [dct, List.length_map, List.length_range]

theorem extractFrameMFCC_length (frame : List ℝ) :
    (extractFrameMFCC frame).length = 13 :=
  dct_length _ 13

theorem mem_extractMFCC_length (audioData : List ℝ) :
    ∀ f ∈ extractMFCC audioData, f.length = 13 := by
  intro f hfm
  simp only [extractMFCC] at hfm
  obtain ⟨g, -, rfl⟩ := List.mem_map.mp hfm
  exact extractFrameMFCC_length g

theorem extractMFCC_ne_nil (audioData : List ℝ) (h : 512 ≤ audioData.length) :
    extractMFCC audioData ≠ [] := by
  simp only [extractMFCC]
  rw [slidingFrames_unfold, if_pos (by omega)]
  simp

theorem computeVoiceSignature_length (f0 : List ℝ) (rest : List (List ℝ)) :
    (computeVoiceSignature (f0 :: rest)).length = f0.length := by
  simp [computeVoiceSignature]

theorem computeVariance_length (f0 : List ℝ) (rest : List (List ℝ)) (mean : List ℝ) :
    (computeVariance (f0 :: rest) mean).length = mean.length := by
  simp [computeVariance]

theorem computeDelta_ne_nil (frames : List (List ℝ)) (h : frames ≠ []) :
    computeDelta frames ≠ [] := by
  simp only [computeDelta]
  split_ifs with hlt
  · exact h
  · simp only [ne_eq, List.map_eq_nil_iff, List.range_eq_nil]
    omega

theorem computeDelta_mem_length (frames : List (List ℝ))
    (h13 : ∀ f ∈ frames, f.length = 13) :
    ∀ g ∈ computeDelta frames, g.length = 13 := by
  intro g hg
  simp only [computeDelta] at hg
  split_ifs at hg with hlt
  · exact h13 g hg
  · obtain ⟨i, hi, rfl⟩ := List.mem_map.mp hg
    rw [List.length_map, List.length_range]
    apply h13
    rw [List.mem_range] at hi
    have hi1 : i + 1 < frames.length := by omega
    rw [List.getD_eq_getElem _ _ hi1]
    exact List.getElem_mem hi1

/-- C9, counterexample to the claim as stated: on a buffer with fewer than
512 samples (here the empty buffer) no MFCC frame is produced, so all three
vector fields of the extracted signature are empty rather than of length 13. -/
theorem extractVoiceSignature_short_counterexample :
    ¬ ((extractVoiceSignature ([] : List ℝ)).mean.length = 13 ∧
       (extractVoiceSignature ([] : List ℝ)).variance.length = 13 ∧
       (extractVoiceSignature ([] : List ℝ)).deltaMean.length = 13 ∧
       0 ≤ (extractVoiceSignature ([] : List ℝ)).frameCount) := by
  rintro ⟨hm, -, -, -⟩
  have hmf : extractMFCC ([] : List ℝ) = [] := by
    simp only [extractMFCC]
    rw [slidingFrames_unfold, if_neg (by simp)]
    rfl
  have hm0 : (extractVoiceSignature ([] : List ℝ)).mean.length = 0 := by
    show (computeVoiceSignature (extractMFCC ([] : List ℝ))).length = 0
    rw [hmf]
    rfl
  rw [hm] at hm0
  norm_num at hm0

/-- C9, amended: every `VoiceSignature` produced by `extractVoiceSignature`
from an audio buffer holding at least one full analysis frame (512 samples)
has mean, variance and deltaMean of identical length 13 and a nonnegative
frame count; shorter buffers instead produce empty (length-0) vectors. -/
theorem extractVoiceSignature_invariant (audioData : List ℝ)
    (h : 512 ≤ audioData.length) :
    (extractVoiceSignature audioData).mean.length = 13 ∧
    (extractVoiceSignature audioData).variance.length = 13 ∧
    (extractVoiceSignature audioData).deltaMean.length = 13 ∧
    0 ≤ (extractVoiceSignature audioData).frameCount := by
  have hne := extractMFCC_ne_nil audioData h
  have h13 := mem_extractMFCC_length audioData
  obtain ⟨f0, rest, hfr⟩ := List.exists_cons_of_ne_nil hne
  have hf0 : f0.length = 13 := h13 f0 (by rw [hfr]; simp)
  refine ⟨?_, ?_, ?_, ?_⟩
  · show (computeVoiceSignature (extractMFCC audioData)).length = 13
    rw [hfr, computeVoiceSignature_length, hf0]
  · show (computeVariance (extractMFCC audioData)
      (computeVoiceSignature (extractMFCC audioData))).length = 13
    rw [hfr, computeVariance_length, computeVoiceSignature_length, hf0]
  · have hdne := computeDelta_ne_nil (extractMFCC audioData) hne
    obtain ⟨d0, ds, hd⟩ := List.exists_cons_of_ne_nil hdne
    have hd13 : d0.length = 13 :=
      computeDelta_mem_length (extractMFCC audioData) h13 d0 (by rw [hd]; simp)
    show (computeVoiceSignature (computeDelta (extractMFCC audioData))).length = 13
    rw [hd, computeVoiceSignature_length, hd13]
  · show (0 : ℝ) ≤ ((extractMFCC audioData).length : ℝ)
    exact Nat.cast_nonneg _

/-- Witness for the amended C9 at a concrete one-frame buffer. -/
theorem extractVoiceSignature_invariant_witness :
    (extractVoiceSignature (List.replicate 512 (0 : ℝ))).mean.length = 13 ∧
    (extractVoiceSignature (List.replicate 512 (0 : ℝ))).variance.length = 13 ∧
    (extractVoiceSignature (List.replicate 512 (0 : ℝ))).deltaMean.length = 13 ∧
    0 ≤ (extractVoiceSignature (List.replicate 512 (0 : ℝ))).frameCount :=
  extractVoiceSignature_invariant (List.replicate 512 0) (by rw [List.length_replicate])

/-! ### Constant-buffer behaviour of the deepfake checks -/

theorem mem_slidingFrames_replicate (n : Nat) (c : ℝ) (fs hop : Nat)
    (hf : 0 < fs) (hh : 0 < hop) (i : Nat) :
    ∀ f ∈ slidingFrames (List.replicate n c) fs hop hf hh i,
      f = List.replicate fs c := by
  suffices H : ∀ m i, n - i ≤ m →
      ∀ f ∈ slidingFrames (List.replicate n c) fs hop hf hh i,
        f = List.replicate fs c by
    exact H n i (Nat.sub_le n i)
  intro m
  induction m with
  | zero =>
    intro i him f hfm
    rw [slidingFrames_unfold, List.length_replicate, if_neg (by omega)] at hfm
    exact absurd hfm (List.not_mem_nil f)
  | succ m ih =>
    intro i him f hfm
    rw [slidingFrames_unfold, List.length_replicate] at hfm
    by_cases hc : i + fs ≤ n
    · rw [if_pos hc] at hfm
      rcases List.mem_cons.mp hfm with rfl | htail
      · rw [List.drop_replicate, List.take_replicate]
        congr 1
        omega
      · exact ih (i + hop) (by omega) f htail
    · rw [if_neg hc] at hfm
      exact absurd hfm (List.not_mem_nil f)

/-- A counting fold over elements that all fail the predicate keeps its
initial count. -/
theorem foldl_count_fix {α : Type} (P : α → Prop) (l : List α)
    (h : ∀ a ∈ l, ¬ P a) (c0 : Nat) :
    l.foldl (fun (cnt : Nat) a => if P a then cnt + 1 else cnt) c0 = c0 :=
  foldl_fix _ _ _ fun cnt a ha => by rw [if_neg (h a ha)]

/-- A filtering fold over elements that all fail the predicate yields the
empty list. -/
theorem foldr_filter_nil {α β : Type} (P : α → Prop) (g : α → β) (l : List α)
    (h : ∀ a ∈ l, ¬ P a) :
    l.foldr (fun a acc => if P a then g a :: acc else acc) [] = [] :=
  foldr_fix _ _ _ fun a b ha => by rw [if_neg (h a ha)]

/-- The standard deviation of an all-zero list (in the exact fold shape used
by `calculateTemporalVariation` and `calculatePitchVariation`) is zero. -/
theorem stddev_zero (D : List ℝ) (h : ∀ x ∈ D, x = 0) :
    Real.sqrt ((D.foldl
      (fun (acc : ℝ) v =>
        acc + (v - (D.foldl (fun (acc : ℝ) v => acc + v) 0) / (D.length : ℝ)) ^ 2)
      0) / (D.length : ℝ)) = 0 := by
  have hsum : D.foldl (fun (acc : ℝ) v => acc + v) 0 = 0 :=
    foldl_fix _ _ _ fun b a ha => by rw [h a ha, add_zero]
  have hvar : D.foldl
      (fun (acc : ℝ) v =>
        acc + (v - (D.foldl (fun (acc : ℝ) v => acc + v) 0) / (D.length : ℝ)) ^ 2)
      0 = 0 :=
    foldl_fix _ _ _ fun b a ha => by
      rw [h a ha, hsum, zero_div, sub_zero]
      norm_num
  rw [hvar, zero_div, Real.sqrt_zero]

theorem calculateTemporalVariation_replicate (n : Nat) (c : ℝ) :
    calculateTemporalVariation (List.replicate n c) = 0 := by
  simp only [calculateTemporalVariation]
  split_ifs with hlen
  · rfl
  · apply stddev_zero
    intro d hd
    obtain ⟨p, hp, rfl⟩ := List.mem_map.mp hd
    obtain ⟨a, b⟩ := p
    have hmem := List.of_mem_zip hp
    have hval : ∀ x ∈ (slidingFrames (List.replicate n c) 256 256
        (by norm_num) (by norm_num) 0).map
        (fun f => Real.sqrt ((f.foldl (fun acc x => acc + x * x) 0) / 256)),
        x = Real.sqrt (((List.replicate 256 c).foldl
          (fun (acc : ℝ) x => acc + x * x) 0) / 256) := by
      intro x hx
      obtain ⟨f, hfm, rfl⟩ := List.mem_map.mp hx
      rw [mem_slidingFrames_replicate n c 256 256 (by norm_num) (by norm_num) 0 f hfm]
    rw [hval a hmem.1, hval b (List.mem_of_mem_tail hmem.2), sub_self, abs_zero]

theorem calculatePitchVariation_replicate (n : Nat) (c : ℝ) :
    calculatePitchVariation (List.replicate n c) = 0 := by
  simp only [calculatePitchVariation]
  split_ifs with hlen
  · rfl
  · apply stddev_zero
    intro x hx
    obtain ⟨f, hfm, rfl⟩ := List.mem_map.mp hx
    rw [mem_slidingFrames_replicate n c 512 256 (by norm_num) (by norm_num) 0 f hfm]
    have hcross : ((List.replicate 512 c).zip (List.replicate 512 c).tail).foldl
        (fun acc p =>
          acc + if (p.1 ≥ 0 ∧ p.2 < 0) ∨ (p.1 < 0 ∧ p.2 ≥ 0) then (1 : ℝ) else 0)
        0 = 0 :=
      foldl_fix _ _ _ fun b p hp => by
        obtain ⟨a1, a2⟩ := p
        have hm := List.of_mem_zip hp
        rw [List.eq_of_mem_replicate hm.1,
          List.eq_of_mem_replicate (List.mem_of_mem_tail hm.2)]
        rw [if_neg (by rintro (⟨h1, h2⟩ | ⟨h1, h2⟩) <;> linarith), add_zero]
    rw [hcross, zero_div]

theorem detectBreathSounds_replicate (n : Nat) (c : ℝ) :
    ¬ detectBreathSounds (List.replicate n c) := by
  simp only [detectBreathSounds]
  have hcnt : (slidingFrames (List.replicate n c) 512 512
      (by norm_num) (by norm_num) 0).foldl
      (fun (cnt : Nat) f =>
        if Real.sqrt ((f.foldl (fun (acc : ℝ) x => acc + x * x) 0) / 512) < 0.05 ∧
            Real.sqrt ((f.foldl (fun (acc : ℝ) x => acc + x * x) 0) / 512) > 0.005 ∧
            Real.sqrt (((f.zip f.tail).foldl
                (fun (acc : ℝ) p => acc + (p.2 - p.1) * (p.2 - p.1)) 0) / (512 - 1)) /
              (Real.sqrt ((f.foldl (fun (acc : ℝ) x => acc + x * x) 0) / 512) + 1e-10) >
              0.5 then
          cnt + 1
        else cnt) 0 = 0 := by
    apply foldl_fix
    intro cnt f hfm
    rw [mem_slidingFrames_replicate n c 512 512 (by norm_num) (by norm_num) 0 f hfm]
    have hhf : ((List.replicate 512 c).zip (List.replicate 512 c).tail).foldl
        (fun (acc : ℝ) p => acc + (p.2 - p.1) * (p.2 - p.1)) 0 = 0 :=
      foldl_fix _ _ _ fun b p hp => by
        obtain ⟨a1, a2⟩ := p
        have hm := List.of_mem_zip hp
        rw [List.eq_of_mem_replicate hm.1,
          List.eq_of_mem_replicate (List.mem_of_mem_tail hm.2)]
        ring
    rw [if_neg]
    rintro ⟨-, -, hgt⟩
    rw [hhf, zero_div, Real.sqrt_zero, zero_div] at hgt
    norm_num at hgt
  rw [hcnt]
  norm_num

theorem calculateMicroVariations_replicate (n : Nat) (c : ℝ) :
    calculateMicroVariations (List.replicate n c) = 0 := by
  simp only [calculateMicroVariations]
  have hpeaks : (((List.replicate n c).zip (List.replicate n c).tail).zip
      (List.replicate n c).tail.tail).foldr
      (fun t acc =>
        if t.1.2 > t.1.1 ∧ t.1.2 > t.2 ∧ t.1.2 > 0.1 then t.1.2 :: acc else acc)
      ([] : List ℝ) = [] := by
    apply foldr_fix
    intro t b ht
    obtain ⟨⟨a1, a2⟩, a3⟩ := t
    have hm := List.of_mem_zip ht
    have hm2 := List.of_mem_zip hm.1
    rw [if_neg]
    rintro ⟨hgt, -, -⟩
    rw [List.eq_of_mem_replicate hm2.1,
      List.eq_of_mem_replicate (List.mem_of_mem_tail hm2.2)] at hgt
    exact lt_irrefl c hgt
  rw [hpeaks]
  rw [if_pos (by norm_num)]

/-- On a constant buffer only the spectral-flatness check can possibly score,
so the classifier's confidence is at most `1/5` and the verdict is
non-human. -/
theorem detectDeepfake_replicate (n : Nat) (c : ℝ) :
    (detectDeepfake (List.replicate n c)).confidence ≤ 0.2 ∧
      ¬ (detectDeepfake (List.replicate n c)).isHuman := by
  have hconf : (detectDeepfake (List.replicate n c)).confidence ≤ 0.2 := by
    show ((if 0.08 ≤ calculateSpectralFlatness (List.replicate n c) ∧
            calculateSpectralFlatness (List.replicate n c) ≤ 0.45 then (1 : ℝ) else 0) +
          (if calculateTemporalVariation (List.replicate n c) > 0.005 then 1 else 0) +
          (if calculatePitchVariation (List.replicate n c) > 0.01 then 1 else 0) +
          (if detectBreathSounds (List.replicate n c) then 1 else 0) +
          (if calculateMicroVariations (List.replicate n c) > 0.02 ∧
            calculateMicroVariations (List.replicate n c) < 0.3 then 1 else 0)) / 5 ≤ 0.2
    rw [calculateTemporalVariation_replicate, calculatePitchVariation_replicate,
      calculateMicroVariations_replicate]
    rw [if_neg (show ¬ ((0 : ℝ) > 0.005) by norm_num),
      if_neg (show ¬ ((0 : ℝ) > 0.01) by norm_num),
      if_neg (detectBreathSounds_replicate n c),
      if_neg (show ¬ ((0 : ℝ) > 0.02 ∧ (0 : ℝ) < 0.3) by rintro ⟨hgt, -⟩; norm_num at hgt)]
    split_ifs <;> norm_num
  refine ⟨hconf, fun hge => ?_⟩
  have : (0.6 : ℝ) ≤ 0.2 := le_trans hge hconf
  norm_num at this

/-- C5: a constant-amplitude buffer (no temporal variation, no pitch
variation, no breath-like frames, no strict amplitude peaks) is classified
non-human with confidence at most `0.4`: at most the spectral-flatness check
of the five can pass, so the score is in fact at most `0.2`. -/
theorem detectDeepfake_constant_buffer (n : Nat) (c : ℝ) :
    ¬ (detectDeepfake (List.replicate n c)).isHuman ∧
      (detectDeepfake (List.replicate n c)).confidence ≤ 0.4 := by
  obtain ⟨hconf, hhuman⟩ := detectDeepfake_replicate n c
  exact ⟨hhuman, le_trans hconf (by norm_num)⟩

/-- C2: whenever the deepfake classifier's verdict on the buffer is not
human, `verifyAgainst` returns a forced non-match with confidence `0` —
carrying exactly that classifier verdict — regardless of the stored
signature and threshold, i.e. without any signature comparison. -/
theorem verifyAgainst_deepfake_short_circuit (audioData storedSignature : List ℝ)
    (threshold : ℝ) (h : ¬ (detectDeepfake audioData).isHuman) :
    ¬ (verifyAgainst audioData storedSignature threshold).«match» ∧
    (verifyAgainst audioData storedSignature threshold).confidence = 0 ∧
    (verifyAgainst audioData storedSignature threshold).deepfakeAnalysis =
      detectDeepfake audioData := by
  simp only [verifyAgainst]
  rw [if_pos h]
  exact ⟨fun hf => hf, rfl, rfl⟩

/-- Witness for C2 at a concrete synthetic buffer (constant half-amplitude,
0.1 s worth of samples), which the classifier rejects as non-human. -/
theorem verifyAgainst_deepfake_short_circuit_witness :
    ¬ (verifyAgainst (List.replicate 1600 (1 / 2)) [1] 0.85).«match» ∧
    (verifyAgainst (List.replicate 1600 (1 / 2)) [1] 0.85).confidence = 0 ∧
    (verifyAgainst (List.replicate 1600 (1 / 2)) [1] 0.85).deepfakeAnalysis =
      detectDeepfake (List.replicate 1600 (1 / 2)) :=
  verifyAgainst_deepfake_short_circuit (List.replicate 1600 (1 / 2)) [1] 0.85
    (detectDeepfake_replicate 1600 (1 / 2)).2
